import Mathlib

/-!
Verification of the DynamoDB-to-CSV export pipeline (`dynamo_query.py`) and the
CSV column-filter utility (`process_column_filter.py`).

Shallow embedding conventions:
* Python runtime scalars appearing in the scripts are modelled by the inductive
  type `Val`.  `decimal.Decimal` values are modelled exactly by a coefficient and
  a power-of-ten exponent (the value of `Val.dec m e` is `m / 10 ^ e`), so the
  distinction between the stored text form (for example `"10.0"`, coefficient
  100 and exponent 1) and the numeric value is preserved.
* Python `float`s are modelled as exact rationals; no claim below depends on
  rounding of binary floating point, only on order and equality of the values
  involved, which the rational model reproduces for the inputs exercised.
* `datetime.fromisoformat` is modelled for date-only strings `YYYY-MM-DD`
  (interpreted as midnight UTC, exactly as the script does for naive results);
  strings carrying a time component are not modelled and fall through to the
  numeric-string parse, which no claim below depends on.
* `float(str)` is modelled for decimal literals with optional sign, fraction
  and exponent; the `inf`/`nan` spellings, underscores and surrounding
  whitespace accepted by Python are not modelled, and no claim depends on them.
* `list.sort(key=..., reverse=...)` is a stable sort (Timsort).  The output of
  a stable sort under a total preorder on keys is uniquely determined by the
  input, so it is modelled by `List.insertionSort`, which is also stable; the
  `reverse=True` case is the stable sort under the flipped comparator, which is
  exactly Python's documented behaviour (comparisons reversed, stability kept).
* Fallible Python operations (`json.dumps` on a `Decimal`, a `ValueError` from
  a parse, a raised exception) are modelled with `Option`/`Except`.
-/

namespace DynamoQuery

/-- Python runtime values flowing through the scripts: `None`, `int`, `float`
(modelled as an exact rational), `decimal.Decimal` (coefficient `m`, value
`m / 10 ^ e`), `str`, `list` and `dict` (with string keys, as produced by the
DynamoDB deserializer). -/
inductive Val where
  | none
  | int (n : Int)
  | float (q : ℚ)
  | dec (m : Int) (e : Nat)
  | str (s : String)
  | list (vs : List Val)
  | map (kvs : List (String × Val))

/-- Python scalar objects that can appear as the second component of a sort-key
tuple built by `value_as_sort_key`. -/
inductive Obj where
  | none
  | int (n : Int)
  | float (q : ℚ)
  | str (s : String)
deriving DecidableEq

/-- Numeric value of the Decimal `Val.dec m e`, namely `m / 10 ^ e`. -/
def decVal (m : Int) (e : Nat) : ℚ := (m : ℚ) / (10 : ℚ) ^ e

/-- Value of a decimal digit character. -/
def digVal (c : Char) : Nat := c.toNat - 48

/-- Natural number denoted by a list of decimal digit characters. -/
def digitsVal (cs : List Char) : Nat := cs.foldl (fun a c => 10 * a + digVal c) 0

/-- Proleptic-Gregorian day count of the civil date `y-m-d` relative to
1970-01-01 (the classic days-from-civil computation, used to model the UTC
timestamp that `datetime` assigns to a date).  Only called with `1 ≤ y`, so all
the divisions below are on nonnegative operands. -/
def daysFromCivil (y : Int) (m d : Nat) : Int :=
  let y2 : Int := if m ≤ 2 then y - 1 else y
  let era : Int := y2 / 400
  let yoe : Int := y2 - era * 400
  let mp : Nat := (m + 9) % 12
  let doy : Int := (153 * (mp : Int) + 2) / 5 + ((d : Int) - 1)
  let doe : Int := yoe * 365 + yoe / 4 - yoe / 100 + doy
  era * 146097 + doe - 719468

/-- Gregorian leap-year test. -/
def isLeapYear (y : Int) : Bool := y % 4 == 0 && (y % 100 != 0 || y % 400 == 0)

/-- Number of days in month `m` of year `y`. -/
def daysInMonth (y : Int) (m : Nat) : Nat :=
  if m = 2 then (if isLeapYear y then 29 else 28)
  else if m = 4 ∨ m = 6 ∨ m = 9 ∨ m = 11 then 30
  else 31

/-- Model of `datetime.fromisoformat` followed by `.timestamp()` as used by the
script: a date-only string `YYYY-MM-DD` is parsed (with full range validation,
as Python performs) and interpreted as midnight UTC, yielding the epoch-second
timestamp; every other string yields `Option.none`, modelling the raised
`ValueError`.  Strings with a time component are not modelled (see the file
header); no claim depends on them. -/
def parseIso (s : String) : Option ℚ :=
  match s.toList with
  | [y1, y2, y3, y4, h1, m1, m2, h2, d1, d2] =>
    if h1 = '-' ∧ h2 = '-' ∧ ([y1, y2, y3, y4, m1, m2, d1, d2].all Char.isDigit) then
      let y : Nat := digitsVal [y1, y2, y3, y4]
      let mo : Nat := digitsVal [m1, m2]
      let d : Nat := digitsVal [d1, d2]
      if 1 ≤ y ∧ 1 ≤ mo ∧ mo ≤ 12 ∧ 1 ≤ d ∧ d ≤ daysInMonth (y : Int) mo then
        some ((86400 * daysFromCivil (y : Int) mo d : Int) : ℚ)
      else Option.none
    else Option.none
  | _ => Option.none

/-- Model of `iso_to_timestamp_ms` (dynamo_query.py lines 49-53):
`int(datetime.fromisoformat(s).timestamp() * 1000)`.  The timestamps produced
by the modelled date-only parse are integral, so `int(...)` truncation is the
identity on the numerator. -/
def iso_to_timestamp_ms (s : String) : Option Int :=
  (parseIso s).map (fun q => (q * 1000).num / ((q * 1000).den : Int))

/-- Sign parser shared by the mantissa and exponent of a float literal. -/
def parseSign : List Char → (Bool × List Char)
  | '+' :: cs => (false, cs)
  | '-' :: cs => (true, cs)
  | cs => (false, cs)

/-- Unsigned mantissa of a Python float literal: digits with at most one
decimal point and at least one digit in total. -/
def parseMantissa (cs : List Char) : Option ℚ :=
  let p := cs.span (fun c => c != '.')
  match p.2 with
  | [] => if p.1 ≠ [] ∧ p.1.all Char.isDigit then some ((digitsVal p.1 : ℚ)) else Option.none
  | _ :: fp =>
    if (p.1 ++ fp) ≠ [] ∧ p.1.all Char.isDigit ∧ fp.all Char.isDigit then
      some ((digitsVal p.1 : ℚ) + (digitsVal fp : ℚ) / (10 : ℚ) ^ fp.length)
    else Option.none

/-- Split a float literal at its first `e`/`E`, if any. -/
def splitExp (cs : List Char) : List Char × Option (List Char) :=
  let p := cs.span (fun c => c != 'e' && c != 'E')
  match p.2 with
  | [] => (p.1, Option.none)
  | _ :: ep => (p.1, some ep)

/-- Power of ten with an integer exponent, as an exact rational. -/
def pow10 (e : Int) : ℚ :=
  if 0 ≤ e then (10 : ℚ) ^ e.toNat else 1 / (10 : ℚ) ^ (-e).toNat

/-- Model of Python `float(s)` on string input: an optionally signed decimal
literal with optional fraction and optional decimal exponent; any other string
yields `Option.none`, modelling the raised `ValueError`.  (The `inf`/`nan`
spellings, digit underscores and surrounding whitespace are not modelled; no
claim depends on them.) -/
def pyFloat (s : String) : Option ℚ :=
  let p := splitExp s.toList
  let sm := parseSign p.1
  match parseMantissa sm.2 with
  | Option.none => Option.none
  | some q0 =>
    let q := if sm.1 then -q0 else q0
    match p.2 with
    | Option.none => some q
    | some ec =>
      let se := parseSign ec
      if se.2 ≠ [] ∧ se.2.all Char.isDigit then
        some (q * pow10 (if se.1 then -(digitsVal se.2 : Int) else (digitsVal se.2 : Int)))
      else Option.none

/-- Decimal rendering of a float value.  Python prints an integral float as
`N.0`; that case is modelled exactly.  Non-integral floats (whose shortest
round-trip repr depends on binary floating point) are rendered as a fraction;
no claim below evaluates this branch. -/
def floatRepr (q : ℚ) : String :=
  if q.den = 1 then toString q.num ++ ".0"
  else toString q.num ++ "/" ++ toString q.den

/-- Literal text of the Decimal with coefficient `m` and exponent `e`, as
`str(Decimal(...))` would print it (sign, digits, decimal point). -/
def decLiteral (m : Int) (e : Nat) : String :=
  let s := toString m.natAbs
  let sign := if m < 0 then "-" else ""
  if e = 0 then sign ++ s
  else
    let ds := s.toList
    if e < ds.length then
      sign ++ String.mk (ds.take (ds.length - e)) ++ "." ++ String.mk (ds.drop (ds.length - e))
    else
      sign ++ "0." ++ String.mk (List.replicate (e - ds.length) '0') ++ s

mutual

/-- Model of Python `str(val)` / `repr(val)` for the values of `Val`, used by
the last-resort branch of `value_as_sort_key`.  String escaping inside `repr`
is not modelled (no claim inspects the text produced for structured values). -/
def pyRepr : Val → String
  | Val.none => "None"
  | Val.int n => toString n
  | Val.float q => floatRepr q
  | Val.dec m e => "Decimal(" ++ decLiteral m e ++ ")"
  | Val.str s => "'" ++ s ++ "'"
  | Val.list vs => "[" ++ String.intercalate ", " (pyReprList vs) ++ "]"
  | Val.map kvs => "\x7b" ++ String.intercalate ", " (pyReprMap kvs) ++ "\x7d"

/-- Elementwise `repr` of a list of values. -/
def pyReprList : List Val → List String
  | [] => []
  | v :: vs => pyRepr v :: pyReprList vs

/-- Elementwise `repr` of the entries of a dict. -/
def pyReprMap : List (String × Val) → List String
  | [] => []
  | (k, v) :: kvs => ("'" ++ k ++ "': " ++ pyRepr v) :: pyReprMap kvs

end

/-- Escape of one character inside a JSON string literal (quote, backslash and
the common control characters; other control characters are left as-is, which
no claim depends on). -/
def jsonEscapeChar (c : Char) : String :=
  if c = '"' then "\\\""
  else if c = '\\' then "\\\\"
  else if c = '\n' then "\\n"
  else if c = '\t' then "\\t"
  else if c = '\r' then "\\r"
  else String.singleton c

/-- Escape of a string for inclusion in JSON output (`ensure_ascii=False`, so
non-ASCII characters are kept verbatim). -/
def jsonEscape (s : String) : String := String.join (s.toList.map jsonEscapeChar)

mutual

/-- Model of `json.dumps(val, ensure_ascii=False)` with the default separators.
`json.dumps` raises `TypeError` on a `Decimal`, modelled by `Option.none`. -/
def jsonDumps : Val → Option String
  | Val.none => some "null"
  | Val.int n => some (toString n)
  | Val.float q => some (floatRepr q)
  | Val.str s => some ("\"" ++ jsonEscape s ++ "\"")
  | Val.dec _ _ => Option.none
  | Val.list vs =>
    match jsonDumpsList vs with
    | some ss => some ("[" ++ String.intercalate ", " ss ++ "]")
    | Option.none => Option.none
  | Val.map kvs =>
    match jsonDumpsMap kvs with
    | some ss => some ("\x7b" ++ String.intercalate ", " ss ++ "\x7d")
    | Option.none => Option.none

/-- JSON rendering of the elements of a list. -/
def jsonDumpsList : List Val → Option (List String)
  | [] => some []
  | v :: vs =>
    match jsonDumps v, jsonDumpsList vs with
    | some s, some ss => some (s :: ss)
    | _, _ => Option.none

/-- JSON rendering of the entries of a dict. -/
def jsonDumpsMap : List (String × Val) → Option (List String)
  | [] => some []
  | (k, v) :: kvs =>
    match jsonDumps v, jsonDumpsMap kvs with
    | some s, some ss => some (("\"" ++ jsonEscape k ++ "\": " ++ s) :: ss)
    | _, _ => Option.none

end

/-- Model of `value_as_sort_key` (dynamo_query.py lines 56-95).  It returns the
Python tuple `(tipo, valor)`: `None` maps to `(2, None)`; a `Decimal` is first
replaced by `int(val)` when `val % 1 == 0` (that is, when its value is an
integer — `den = 1`) and by `float(val)` otherwise, and then, like every
`int`/`float`, maps to rank 0; a string is tried as an ISO date (rank 0,
`timestamp()`), then as a float literal (rank 0), and otherwise keeps rank 1;
any other value maps to `(1, str(val))`. -/
def value_as_sort_key : Val → Nat × Obj
  | Val.none => (2, Obj.none)
  | Val.dec m e =>
    if (decVal m e).den = 1 then (0, Obj.int (decVal m e).num) else (0, Obj.float (decVal m e))
  | Val.int n => (0, Obj.int n)
  | Val.float q => (0, Obj.float q)
  | Val.str s =>
    match parseIso s with
    | some ts => (0, Obj.float ts)
    | Option.none =>
      match pyFloat s with
      | some q => (0, Obj.float q)
      | Option.none => (1, Obj.str s)
  | Val.list vs => (1, Obj.str (pyRepr (Val.list vs)))
  | Val.map kvs => (1, Obj.str (pyRepr (Val.map kvs)))

/-- Model of `to_scalar` (dynamo_query.py lines 98-103): a `Decimal` becomes
`int(val)` when `val % 1 == 0` (its value is an integer) and `float(val)`
otherwise; a `dict` or `list` becomes its JSON text (`Option.none` when
`json.dumps` raises on a nested `Decimal`); everything else passes through. -/
def to_scalar : Val → Option Val
  | Val.dec m e =>
    some (if (decVal m e).den = 1 then Val.int (decVal m e).num else Val.float (decVal m e))
  | Val.list vs => (jsonDumps (Val.list vs)).map Val.str
  | Val.map kvs => (jsonDumps (Val.map kvs)).map Val.str
  | v => some v

/-- Rows as returned by the DynamoDB resource: a dict from attribute names to
values, modelled as an association list with the usual first-match lookup. -/
abbrev Row := List (String × Val)

/-- Sort key of a row for the configured sort attribute, as computed by
`main` (dynamo_query.py line 178): `value_as_sort_key(it.get(args.sort_by))`,
where `dict.get` yields `None` for an absent attribute. -/
def rowKey (attr : String) (it : Row) : Nat × Obj :=
  value_as_sort_key ((it.lookup attr).getD Val.none)

/-- Code-point lexicographic strict comparison of character lists, mirroring
Python string comparison (and agreeing with Lean's `List.lt`, see
`charListLt_iff`); a Boolean function so that it evaluates by kernel
reduction. -/
def charListLt : List Char → List Char → Bool
  | _, [] => false
  | [], _ :: _ => true
  | c :: cs, d :: ds => if c < d then true else if d < c then false else charListLt cs ds

/-- Python string `<`: code-point lexicographic comparison. -/
def strLt (a b : String) : Bool := charListLt a.toList b.toList

/-- Python string `<=`: the negation of the reversed `<` of the total order. -/
def strLe (a b : String) : Bool := !(strLt b a)

/-- Python `==` on the scalar objects found in sort keys: numeric equality
across `int`/`float`, string equality, `None == None`, and `False` across
kinds. -/
def pyObjEq : Obj → Obj → Bool
  | Obj.int m, Obj.int n => decide (m = n)
  | Obj.int m, Obj.float q => decide ((m : ℚ) = q)
  | Obj.float p, Obj.int n => decide (p = (n : ℚ))
  | Obj.float p, Obj.float q => decide (p = q)
  | Obj.str s, Obj.str t => decide (s = t)
  | Obj.none, Obj.none => true
  | _, _ => false

/-- Python `<=` on the scalar objects found in sort keys: defined across
numeric types and between strings; any other combination (in particular
anything involving `None`) raises `TypeError`, modelled by `Option.none`. -/
def pyObjLe : Obj → Obj → Option Bool
  | Obj.int m, Obj.int n => some (decide (m ≤ n))
  | Obj.int m, Obj.float q => some (decide ((m : ℚ) ≤ q))
  | Obj.float p, Obj.int n => some (decide (p ≤ (n : ℚ)))
  | Obj.float p, Obj.float q => some (decide (p ≤ q))
  | Obj.str s, Obj.str t => some (strLe s t)
  | _, _ => Option.none

/-- Python `==` on sort-key tuples: componentwise equality. -/
def pyKeyEq (k1 k2 : Nat × Obj) : Bool :=
  decide (k1.1 = k2.1) && pyObjEq k1.2 k2.2

/-- Python `<=` on sort-key tuples (CPython tuple rich comparison): scan for
the first component where the tuples differ under `==` and compare there; if
no component differs the tuples are equal and `<=` is `True`.  `Option.none`
models a `TypeError` from comparing incomparable payloads. -/
def pyKeyLe (k1 k2 : Nat × Obj) : Option Bool :=
  if k1.1 = k2.1 then (if pyObjEq k1.2 k2.2 then some true else pyObjLe k1.2 k2.2)
  else some (decide (k1.1 ≤ k2.1))

/-- Total comparator actually driving the sort.  On the keys produced by
`value_as_sort_key` the payload comparison is always defined (see `GoodKey`
below), so the `getD` default is never consulted there. -/
def keyLeB (k1 k2 : Nat × Obj) : Bool := (pyKeyLe k1 k2).getD true

/-- Row comparator of `items.sort(key=..., reverse=reverse)`: ascending
compares the keys in order; `reverse=True` sorts as if each comparison were
reversed while keeping stability, that is, it stably sorts under the flipped
comparator. -/
def rowLe (rev : Bool) (attr : String) (a b : Row) : Bool :=
  if rev then keyLeB (rowKey attr b) (rowKey attr a)
  else keyLeB (rowKey attr a) (rowKey attr b)

/-- Propositional form of `rowLe`, the relation handed to the sort. -/
def rowLeRel (rev : Bool) (attr : String) : Row → Row → Prop :=
  fun a b => rowLe rev attr a b = true

instance (rev : Bool) (attr : String) : DecidableRel (rowLeRel rev attr) :=
  fun a b => inferInstanceAs (Decidable (rowLe rev attr a b = true))

/-- Model of `items.sort(key=lambda it: value_as_sort_key(it.get(args.sort_by)),
reverse=reverse)` (dynamo_query.py line 178).  Python's sort is stable, and a
stable sort under a total preorder has a uniquely determined output, so the
stable `List.insertionSort` computes the same list. -/
def sortItems (rev : Bool) (attr : String) (items : List Row) : List Row :=
  List.insertionSort (rowLeRel rev attr) items

/-- Numeric content of a sort-key payload (zero for non-numeric payloads). -/
def objRat : Obj → ℚ
  | Obj.int n => (n : ℚ)
  | Obj.float q => q
  | _ => 0

/-- Textual content of a sort-key payload (empty for non-string payloads). -/
def objStr : Obj → String
  | Obj.str s => s
  | _ => ""

/-- Linear-order measure of a sort key: rank first, then numeric payload, then
textual payload, lexicographically.  On the keys produced by
`value_as_sort_key` the Python tuple comparison agrees with this measure. -/
def keyMeas (k : Nat × Obj) : Lex (Nat × Lex (ℚ × String)) :=
  toLex (k.1, toLex (objRat k.2, objStr k.2))

/-- Shape invariant of the keys produced by `value_as_sort_key`: rank 0 pairs
with an `int` or `float` payload, rank 1 with a `str` payload, and rank 2 with
`None`. -/
inductive GoodKey : Nat × Obj → Prop where
  | int (n : Int) : GoodKey (0, Obj.int n)
  | float (q : ℚ) : GoodKey (0, Obj.float q)
  | str (s : String) : GoodKey (1, Obj.str s)
  | missing : GoodKey (2, Obj.none)

/-- Propositional form of the string comparison, used to sort headers. -/
def strLeRel : String → String → Prop := fun a b => strLe a b = true

instance : DecidableRel strLeRel :=
  fun a b => inferInstanceAs (Decidable (strLe a b = true))

/-- Model of `collect_headers` (dynamo_query.py lines 143-147): the union of
all attribute names over the items, sorted lexicographically.  Python builds a
`set` and applies `sorted`; the result is the unique strictly-sorted list of
the union's members, computed here as a sort of the deduplicated key list. -/
def collect_headers (items : List Row) : List String :=
  List.insertionSort strLeRel
    (items.foldl (fun acc it => acc ++ it.map Prod.fst) []).dedup

/-- Stringification a cell value undergoes inside `csv.writer`: `None` is
written as an empty string, strings are written as-is, other values via
`str()`.  After `to_scalar`, the `dec`/`list`/`map` branches are unreachable. -/
def cellString : Val → String
  | Val.none => ""
  | Val.str s => s
  | Val.int n => toString n
  | Val.float q => floatRepr q
  | Val.dec m e => decLiteral m e
  | Val.list vs => pyRepr (Val.list vs)
  | Val.map kvs => pyRepr (Val.map kvs)

/-- Minimal quoting (`csv.QUOTE_MINIMAL`): quote a field only when it contains
the delimiter, the quote character or a line break, doubling embedded
quotes. -/
def quoteCell (delim : Char) (s : String) : String :=
  if s.toList.any (fun c => c == delim || c == '"' || c == '\n' || c == '\r') then
    "\"" ++ String.mk (s.toList.foldr
      (fun c acc => if c == '"' then '"' :: '"' :: acc else c :: acc) []) ++ "\""
  else s

/-- One physical CSV line: the quoted cells joined by the delimiter. -/
def csvLine (delim : Char) (cells : List String) : String :=
  String.intercalate (String.singleton delim) (cells.map (quoteCell delim))

/-- Cell computed by `write_csv` for row `it` and header `h`
(dynamo_query.py line 156): `to_scalar(it.get(h, ""))`, then the writer's
stringification.  `Option.none` models a `TypeError` raised by `to_scalar` on
a structure containing a nested `Decimal`. -/
def csvCellOf (it : Row) (h : String) : Option String :=
  (to_scalar ((it.lookup h).getD (Val.str ""))).map cellString

/-- Data line written for one row. -/
def rowLine (delim : Char) (headers : List String) (it : Row) : Option String :=
  (headers.mapM (csvCellOf it)).map (csvLine delim)

/-- Model of `write_csv` (dynamo_query.py lines 150-157): the header line
followed by one line per item, in order. -/
def write_csv (items : List Row) (headers : List String) (delim : Char) :
    Option (List String) :=
  (items.mapM (rowLine delim headers)).map (fun ls => csvLine delim headers :: ls)

/-- Filter expression attached to the scan, mirroring the constructor calls
`Attr(date_attr).between/gte/lte` (dynamo_query.py lines 122-127). -/
inductive Filter where
  | between (lo hi : Int)
  | gte (lo : Int)
  | lte (hi : Int)
  | noFilter
deriving DecidableEq

/-- Python truthiness of an optional integer: `None` and `0` are falsy. -/
def truthyInt : Option Int → Bool
  | Option.none => false
  | some n => decide (n ≠ 0)

/-- Filter construction of `scan_table` (dynamo_query.py lines 122-127),
including the `if start_ts and end_ts` truthiness tests of the source: a bound
equal to `0` is falsy and is treated like an absent bound. -/
def mkFilter (startTs endTs : Option Int) : Filter :=
  if truthyInt startTs && truthyInt endTs then
    Filter.between (startTs.getD 0) (endTs.getD 0)
  else if truthyInt startTs then Filter.gte (startTs.getD 0)
  else if truthyInt endTs then Filter.lte (endTs.getD 0)
  else Filter.noFilter

/-- Modelled from the spec: the store-side semantics of the filter predicate on
the numeric date attribute (`between` is the inclusive interval, `gte`/`lte`
the inclusive one-sided bounds); the DynamoDB service evaluating the
expression is an external collaborator, not code of this repository. -/
def filterHolds (f : Filter) (x : Int) : Prop :=
  match f with
  | Filter.between lo hi => lo ≤ x ∧ x ≤ hi
  | Filter.gte lo => lo ≤ x
  | Filter.lte hi => x ≤ hi
  | Filter.noFilter => True

/-- One page response of the remote store: a batch of rows plus an optional
continuation token (`LastEvaluatedKey`), over an opaque token type `K`. -/
structure PageResp (K : Type) where
  items : List Row
  lastKey : Option K

/-- Model of the scan loop of `scan_table` (dynamo_query.py lines 129-139):
request a page (passing `ExclusiveStartKey` only when a token is in hand),
append the returned items, and stop when the response carries no token.  The
store is the function `page`; `Option.none` from `page` models a transport
failure, and the fuel bounds the number of iterations (the Python loop has no
bound; every theorem below supplies enough fuel for the chain it considers). -/
def scanLoop {K : Type} (page : Option K → Option (PageResp K)) :
    Nat → Option K → List Row → Option (List Row)
  | 0, _, _ => Option.none
  | Nat.succ fuel, key, acc =>
    match page key with
    | Option.none => Option.none
    | some resp =>
      match resp.lastKey with
      | Option.none => some (acc ++ resp.items)
      | some k => scanLoop page fuel (some k) (acc ++ resp.items)

/-- Model of `scan_table` (dynamo_query.py lines 112-139): build the filter
from the optional bounds, then run the paging loop from an empty accumulator
with no initial token. -/
def scan_table {K : Type} (page : Filter → Option K → Option (PageResp K))
    (startTs endTs : Option Int) (fuel : Nat) : Option (List Row) :=
  scanLoop (page (mkFilter startTs endTs)) fuel Option.none []

/-- Page-response chain of length `rs.length` produced by the store when
queried starting from token `k`: each response is what `page` returns for the
token carried from the previous response, every response but the last carries
a continuation token, and the last carries none. -/
inductive Fetches {K : Type} (page : Option K → Option (PageResp K)) :
    Option K → List (PageResp K) → Prop where
  | last : ∀ {k : Option K} {r : PageResp K},
      page k = some r → r.lastKey = Option.none → Fetches page k [r]
  | step : ∀ {k : Option K} {r : PageResp K} {k2 : K} {rs : List (PageResp K)},
      page k = some r → r.lastKey = some k2 → Fetches page (some k2) rs →
      Fetches page k (r :: rs)

/-- Failure conditions of `filter_csv` (process_column_filter.py lines 88-100):
the `ValueError` listing the missing columns, and the `ValueError` raised when
no requested column remains. -/
inductive FilterErr where
  | schemaMismatch (missing : List String)
  | noColumnsRemaining
deriving DecidableEq

/-- Successful output of `filter_csv`: the header actually written, the
projected data rows, and whether the missing-column warning was printed. -/
structure FilterOut where
  header : List String
  rows : List (List String)
  warned : Bool
deriving DecidableEq

/-- Projection of one input row onto the kept columns, mirroring
`row.get(col, "")` (process_column_filter.py line 110). -/
def projectRow (keep : List String) (r : List (String × String)) : List String :=
  keep.map (fun c => (r.lookup c).getD "")

/-- Model of `filter_csv` (process_column_filter.py lines 74-111).  The input
file is abstracted to its header (`existingCols`, the `fieldnames` of the
`DictReader`) and its data rows (association lists from column name to cell
text).  `missing` lists the requested columns absent from the input; without
`ignore_missing` a nonempty `missing` aborts with `schemaMismatch`, otherwise
the missing names are dropped with a warning; if no column remains the run
aborts with `noColumnsRemaining`; otherwise the output holds exactly the kept
columns, in the caller-specified order, over every data row. -/
def filter_csv (existingCols : List String) (rows : List (List (String × String)))
    (columnsToKeep : List String) (ignoreMissing : Bool) : Except FilterErr FilterOut :=
  let missing := columnsToKeep.filter (fun c => decide (c ∉ existingCols))
  if missing ≠ [] ∧ ignoreMissing = false then
    Except.error (FilterErr.schemaMismatch missing)
  else
    let warned : Bool := decide (missing ≠ [])
    let keep :=
      if missing ≠ [] then columnsToKeep.filter (fun c => decide (c ∈ existingCols))
      else columnsToKeep
    if keep = [] then Except.error FilterErr.noColumnsRemaining
    else Except.ok ⟨keep, rows.map (projectRow keep), warned⟩

/-- Outcome of the scan as seen by `main`: the table was missing
(`ResourceNotFoundException`) or the items were fetched. -/
inductive ScanOutcome where
  | notFound
  | ok (items : List Row)

/-- Observable outcome of a `main` run (file-output mode): the handled
not-found abort, a successful export with the CSV lines written, or an
unhandled serialization error (after which the output file may be partial). -/
inductive RunOutcome where
  | fatalNotFound
  | success (lines : List String)
  | crash

/-- Model of `main` (dynamo_query.py lines 161-188) downstream of the scan:
a `ResourceNotFoundException` is caught, a diagnostic is printed to standard
error and the process exits with status 1 before any output file is opened;
otherwise the items are sorted, the headers collected, and the CSV written. -/
def runMain (scanRes : ScanOutcome) (sortBy : String) (descending : Bool)
    (delim : Char) : RunOutcome :=
  match scanRes with
  | ScanOutcome.notFound => RunOutcome.fatalNotFound
  | ScanOutcome.ok items =>
    let sorted := sortItems descending sortBy items
    let headers := collect_headers sorted
    match write_csv sorted headers delim with
    | some lines => RunOutcome.success lines
    | Option.none => RunOutcome.crash

/-- Process exit status of a run outcome: 0 on success, 1 on the handled
not-found abort and 1 on an unhandled exception. -/
def exitCode : RunOutcome → Nat
  | RunOutcome.fatalNotFound => 1
  | RunOutcome.success _ => 0
  | RunOutcome.crash => 1

/-- Whether a diagnostic is printed on the error channel. -/
def stderrDiagnostic : RunOutcome → Bool
  | RunOutcome.success _ => false
  | _ => true

/-- Whether the output file has been created or modified: `main` opens the
output file only after a successful scan, so the not-found abort leaves no
file behind. -/
def outputFileWritten : RunOutcome → Bool
  | RunOutcome.fatalNotFound => false
  | _ => true

/-- Projection of a row to its integer `id` attribute (0 when absent), used
to tell the two counterexample orders apart. -/
def idNum (r : Row) : Int :=
  match (r.lookup "id").getD Val.none with
  | Val.int n => n
  | _ => 0

/-- Two-page store used to witness C5. -/
def wPage : Option Nat → Option (PageResp Nat) :=
  fun k =>
    match k with
    | Option.none => some ⟨[[("id", Val.int 1)]], some 7⟩
    | some 7 => some ⟨[[("id", Val.int 2)]], Option.none⟩
    | some _ => Option.none

/-! ### Key-shape and order lemmas -/

open List

/-- The Boolean lexicographic comparison agrees with the lexicographic order
on character lists. -/
theorem charListLt_iff (cs ds : List Char) : charListLt cs ds = true ↔ cs < ds := by
  induction cs generalizing ds with
  | nil =>
    cases ds with
    | nil =>
      simp only [charListLt, Bool.false_eq_true, false_iff]
      exact fun h => nomatch h
    | cons d ds =>
      simp only [charListLt, true_iff]
      exact List.Lex.nil
  | cons c cs ih =>
    cases ds with
    | nil =>
      simp only [charListLt, Bool.false_eq_true, false_iff]
      exact fun h => nomatch h
    | cons d ds =>
      by_cases h1 : c < d
      · simp only [charListLt, if_pos h1, true_iff]
        exact List.Lex.rel h1
      · by_cases h2 : d < c
        · simp only [charListLt, if_neg h1, if_pos h2, Bool.false_eq_true, false_iff]
          intro h
          cases h with
          | cons h3 => exact absurd h2 (lt_irrefl _)
          | rel h3 => exact h1 h3
        · have heq : c = d := le_antisymm (le_of_not_lt h2) (le_of_not_lt h1)
          subst heq
          simp only [charListLt, if_neg h1, ih]
          constructor
          · exact fun h3 => List.Lex.cons h3
          · intro h
            cases h with
            | cons h3 => exact h3
            | rel h3 => exact absurd h3 h1

/-- The Boolean string comparison agrees with the string order. -/
theorem strLt_iff (a b : String) : strLt a b = true ↔ a < b := by
  rw [String.lt_iff_toList_lt]
  exact charListLt_iff _ _

/-- The Boolean string comparison agrees with the string order. -/
theorem strLe_iff (a b : String) : strLe a b = true ↔ a ≤ b := by
  rcases hb : strLt b a with _ | _
  · simp only [strLe, hb, Bool.not_false, true_iff]
    have := (strLt_iff b a).not.mp (by simp [hb])
    exact le_of_not_lt this
  · simp only [strLe, hb, Bool.not_true, Bool.false_eq_true, false_iff, not_le]
    exact (strLt_iff b a).mp hb

/-- Every key built by `value_as_sort_key` is well-shaped. -/
theorem goodKey_value (v : Val) : GoodKey (value_as_sort_key v) := by
  cases v with
  | none => exact GoodKey.missing
  | int n => exact GoodKey.int n
  | float q => exact GoodKey.float q
  | dec m e =>
    simp only [value_as_sort_key]
    split
    · exact GoodKey.int _
    · exact GoodKey.float _
  | str s =>
    simp only [value_as_sort_key]
    cases parseIso s with
    | some ts => exact GoodKey.float ts
    | none =>
      cases pyFloat s with
      | some q => exact GoodKey.float q
      | none => exact GoodKey.str s
  | list vs => exact GoodKey.str _
  | map kvs => exact GoodKey.str _

/-- Row keys are always well-shaped. -/
theorem goodKey_rowKey (attr : String) (it : Row) : GoodKey (rowKey attr it) :=
  goodKey_value _

/-- Unfolded form of the lexicographic measure order. -/
theorem keyMeas_le_iff (k1 k2 : Nat × Obj) :
    keyMeas k1 ≤ keyMeas k2 ↔
      (k1.1 < k2.1 ∨ (k1.1 = k2.1 ∧
        (objRat k1.2 < objRat k2.2 ∨
          (objRat k1.2 = objRat k2.2 ∧ objStr k1.2 ≤ objStr k2.2)))) := by
  simp [keyMeas, Prod.Lex.le_iff]

/-- Unfolded form of equality of measures. -/
theorem keyMeas_eq_iff (k1 k2 : Nat × Obj) :
    keyMeas k1 = keyMeas k2 ↔
      (k1.1 = k2.1 ∧ objRat k1.2 = objRat k2.2 ∧ objStr k1.2 = objStr k2.2) := by
  simp [keyMeas, Prod.ext_iff]

/-- On well-shaped keys, the Python tuple comparison never raises. -/
theorem pyKeyLe_isSome {k1 k2 : Nat × Obj} (g1 : GoodKey k1) (g2 : GoodKey k2) :
    (pyKeyLe k1 k2).isSome := by
  cases g1 <;> cases g2 <;> simp [pyKeyLe, pyObjEq, pyObjLe] <;> split <;> simp

/-- On well-shaped keys, the comparator driving the sort agrees with the
lexicographic measure. -/
theorem keyLeB_iff {k1 k2 : Nat × Obj} (g1 : GoodKey k1) (g2 : GoodKey k2) :
    keyLeB k1 k2 = true ↔ keyMeas k1 ≤ keyMeas k2 := by
  cases g1 <;> cases g2 <;>
    simp [keyLeB, pyKeyLe, pyObjEq, pyObjLe, keyMeas_le_iff, objRat, objStr] <;>
    (try (split <;> simp_all [le_iff_lt_or_eq, strLe_iff, String.le_iff_toList_le,
      String.toList, String.ext_iff]))

/-- On well-shaped keys, Python tuple equality agrees with equality of
measures. -/
theorem pyKeyEq_iff {k1 k2 : Nat × Obj} (g1 : GoodKey k1) (g2 : GoodKey k2) :
    pyKeyEq k1 k2 = true ↔ keyMeas k1 = keyMeas k2 := by
  cases g1 <;> cases g2 <;>
    simp [pyKeyEq, pyObjEq, keyMeas_eq_iff, objRat, objStr]

/-- Ascending row comparison agrees with the measure order on row keys. -/
theorem rowLeRel_false_iff (attr : String) (a b : Row) :
    rowLeRel false attr a b ↔ keyMeas (rowKey attr a) ≤ keyMeas (rowKey attr b) := by
  unfold rowLeRel rowLe
  simpa using keyLeB_iff (goodKey_rowKey attr a) (goodKey_rowKey attr b)

/-- Descending row comparison agrees with the flipped measure order. -/
theorem rowLeRel_true_iff (attr : String) (a b : Row) :
    rowLeRel true attr a b ↔ keyMeas (rowKey attr b) ≤ keyMeas (rowKey attr a) := by
  unfold rowLeRel rowLe
  simpa using keyLeB_iff (goodKey_rowKey attr b) (goodKey_rowKey attr a)

/-- The row comparator is total in both directions. -/
theorem rowLeRel_total (rev : Bool) (attr : String) :
    ∀ a b : Row, rowLeRel rev attr a b ∨ rowLeRel rev attr b a := by
  intro a b
  cases rev
  · rw [rowLeRel_false_iff, rowLeRel_false_iff]
    exact le_total _ _
  · rw [rowLeRel_true_iff, rowLeRel_true_iff]
    exact le_total _ _

/-- The row comparator is transitive in both directions. -/
theorem rowLeRel_trans (rev : Bool) (attr : String) :
    ∀ a b c : Row, rowLeRel rev attr a b → rowLeRel rev attr b c → rowLeRel rev attr a c := by
  intro a b c hab hbc
  cases rev
  · rw [rowLeRel_false_iff] at hab hbc ⊢
    exact le_trans hab hbc
  · rw [rowLeRel_true_iff] at hab hbc ⊢
    exact le_trans hbc hab

/-- Sorting permutes the row set. -/
theorem sortItems_perm (rev : Bool) (attr : String) (l : List Row) :
    sortItems rev attr l ~ l :=
  List.perm_insertionSort _ _

/-- The sorted row set is sorted for the direction's comparator. -/
theorem sortItems_sorted (rev : Bool) (attr : String) (l : List Row) :
    List.Sorted (rowLeRel rev attr) (sortItems rev attr l) := by
  haveI : IsTotal Row (rowLeRel rev attr) := ⟨rowLeRel_total rev attr⟩
  haveI : IsTrans Row (rowLeRel rev attr) := ⟨rowLeRel_trans rev attr⟩
  exact List.sorted_insertionSort _ _

/-- Stability of the modelled sort: for any fixed well-shaped key, the
subsequence of rows whose row key equals it under Python `==` is unchanged by
sorting, in either direction. -/
theorem sortItems_stable_filter (rev : Bool) (attr : String) (l : List Row)
    {k : Nat × Obj} (gk : GoodKey k) :
    (sortItems rev attr l).filter (fun r => pyKeyEq (rowKey attr r) k)
      = l.filter (fun r => pyKeyEq (rowKey attr r) k) := by
  set p : Row → Bool := fun r => pyKeyEq (rowKey attr r) k with hp
  have hmem : ∀ r ∈ l.filter p, keyMeas (rowKey attr r) = keyMeas k := by
    intro r hr
    have := (List.mem_filter.mp hr).2
    exact (pyKeyEq_iff (goodKey_rowKey attr r) gk).mp this
  have hF : (l.filter p).Pairwise (rowLeRel rev attr) := by
    refine List.pairwise_of_forall_mem_list ?_
    intro a ha b hb
    have hab : keyMeas (rowKey attr a) = keyMeas (rowKey attr b) :=
      (hmem a ha).trans (hmem b hb).symm
    cases rev
    · exact (rowLeRel_false_iff attr a b).mpr (le_of_eq hab)
    · exact (rowLeRel_true_iff attr a b).mpr (le_of_eq hab.symm)
  have hsub : l.filter p <+ sortItems rev attr l :=
    List.sublist_insertionSort hF (List.filter_sublist l)
  have hsub2 : l.filter p <+ (sortItems rev attr l).filter p := by
    have h2 := hsub.filter p
    simpa using h2
  have hperm : (sortItems rev attr l).filter p ~ l.filter p :=
    (sortItems_perm rev attr l).filter p
  exact (hsub2.eq_of_length hperm.length_eq.symm).symm

/-- Two row lists that are permutations of each other, both sorted under the
same direction's comparator, and with identical equal-key subsequences, are
equal.  This is the uniqueness of stable sorting. -/
theorem sorted_stable_eq (rev : Bool) (attr : String) :
    ∀ X Y : List Row, X.Perm Y → X.Sorted (rowLeRel rev attr) →
      Y.Sorted (rowLeRel rev attr) →
      (∀ k : Nat × Obj, GoodKey k →
        X.filter (fun r => pyKeyEq (rowKey attr r) k)
          = Y.filter (fun r => pyKeyEq (rowKey attr r) k)) →
      X = Y := by
  intro X
  induction X with
  | nil =>
    intro Y hperm _ _ _
    exact (hperm.symm.eq_nil).symm
  | cons x Xs ih =>
    intro Y hperm hsX hsY hf
    cases Y with
    | nil => exact absurd hperm.eq_nil (by simp)
    | cons y Ys =>
      have hgx := goodKey_rowKey attr x
      have hgy := goodKey_rowKey attr y
      have hxy : keyMeas (rowKey attr x) = keyMeas (rowKey attr y) := by
        rcases List.mem_cons.mp (hperm.symm.subset (List.mem_cons_self y Ys)) with h | h
        · exact congrArg (fun r => keyMeas (rowKey attr r)) h.symm
        · rcases List.mem_cons.mp (hperm.subset (List.mem_cons_self x Xs)) with h2 | h2
          · exact congrArg (fun r => keyMeas (rowKey attr r)) h2
          · have r1 := List.rel_of_sorted_cons hsX y h
            have r2 := List.rel_of_sorted_cons hsY x h2
            cases rev
            · exact le_antisymm ((rowLeRel_false_iff attr x y).mp r1)
                ((rowLeRel_false_iff attr y x).mp r2)
            · exact le_antisymm ((rowLeRel_true_iff attr y x).mp r2)
                ((rowLeRel_true_iff attr x y).mp r1)
      have heqx : pyKeyEq (rowKey attr x) (rowKey attr x) = true :=
        (pyKeyEq_iff hgx hgx).mpr rfl
      have heqy : pyKeyEq (rowKey attr y) (rowKey attr x) = true :=
        (pyKeyEq_iff hgy hgx).mpr hxy.symm
      have h0 := hf (rowKey attr x) hgx
      simp only [List.filter_cons, heqx, heqy, if_true] at h0
      injection h0 with hhead htail
      subst hhead
      have hperm2 : Xs.Perm Ys := hperm.cons_inv
      have hfk : ∀ k : Nat × Obj, GoodKey k →
          Xs.filter (fun r => pyKeyEq (rowKey attr r) k)
            = Ys.filter (fun r => pyKeyEq (rowKey attr r) k) := by
        intro k gk
        have h1 := hf k gk
        by_cases hpx : pyKeyEq (rowKey attr x) k = true
        · simp only [List.filter_cons, hpx, if_true] at h1
          injection h1 with _ h2
        · simp only [List.filter_cons, if_neg hpx] at h1
          exact h1
      exact congrArg (List.cons x) (ih Ys hperm2 hsX.of_cons hsY.of_cons hfk)

/-- Semantic adequacy of the sort model: Python's `list.sort` guarantees
exactly that its output is a permutation of the input, sorted under the
(direction-adjusted) key comparator, and stable; any list with these three
properties equals `sortItems`, so the insertion-sort model computes precisely
the `list.sort` output. -/
theorem sortItems_unique (rev : Bool) (attr : String) (l out : List Row)
    (hperm : out.Perm l) (hsort : out.Sorted (rowLeRel rev attr))
    (hstable : ∀ k : Nat × Obj, GoodKey k →
      out.filter (fun r => pyKeyEq (rowKey attr r) k)
        = l.filter (fun r => pyKeyEq (rowKey attr r) k)) :
    out = sortItems rev attr l := by
  refine sorted_stable_eq rev attr out (sortItems rev attr l)
    (hperm.trans (sortItems_perm rev attr l).symm) hsort (sortItems_sorted rev attr l) ?_
  intro k gk
  rw [hstable k gk, sortItems_stable_filter rev attr l gk]

/-! ### Claims -/

/-- C10: every value returned by the sort-key builder is a pair
`(rank, payload)` with rank 0 always carrying an `int` or `float` payload,
rank 1 always a string payload, and rank 2 always the `None` payload; as a
consequence, the Python comparison of any two keys produced by the builder is
defined (no `TypeError`), which is what makes the induced order total across
type-heterogeneous rows. -/
theorem claim10 :
    (∀ v : Val,
      ((value_as_sort_key v).1 = 0 ∧
        ((∃ n, (value_as_sort_key v).2 = Obj.int n) ∨
          (∃ q, (value_as_sort_key v).2 = Obj.float q)))
      ∨ ((value_as_sort_key v).1 = 1 ∧ (∃ s, (value_as_sort_key v).2 = Obj.str s))
      ∨ ((value_as_sort_key v).1 = 2 ∧ (value_as_sort_key v).2 = Obj.none))
    ∧ (∀ v w : Val,
        (pyKeyLe (value_as_sort_key v) (value_as_sort_key w)).isSome = true) := by
  constructor
  · intro v
    have g := goodKey_value v
    generalize value_as_sort_key v = k at g
    cases g with
    | int n => exact Or.inl ⟨rfl, Or.inl ⟨n, rfl⟩⟩
    | float q => exact Or.inl ⟨rfl, Or.inr ⟨q, rfl⟩⟩
    | str s => exact Or.inr (Or.inl ⟨rfl, ⟨s, rfl⟩⟩)
    | missing => exact Or.inr (Or.inr ⟨rfl, rfl⟩)
  · intro v w
    exact pyKeyLe_isSome (goodKey_value v) (goodKey_value w)

/-- C3: sort-key construction never throws — in particular a string that fails
the date parse and fails the float parse falls through to the textual rank,
keeping the original string as payload — and the sort it drives is stable: for
every key value, the subsequence of rows whose sort key equals it (under
Python `==`) is the same before and after sorting, in either direction. -/
theorem claim3 :
    (∀ s : String, parseIso s = Option.none → pyFloat s = Option.none →
      value_as_sort_key (Val.str s) = (1, Obj.str s))
    ∧ (∀ (rev : Bool) (attr : String) (l : List Row) (v : Val),
        (sortItems rev attr l).filter
            (fun r => pyKeyEq (rowKey attr r) (value_as_sort_key v))
          = l.filter (fun r => pyKeyEq (rowKey attr r) (value_as_sort_key v))) := by
  constructor
  · intro s h1 h2
    simp [value_as_sort_key, h1, h2]
  · intro rev attr l v
    exact sortItems_stable_filter rev attr l (goodKey_value v)

/-- Witness for C3: the string `"hello"` fails both parses and keeps the
textual rank, and sorting two equal-key rows (both missing the attribute)
leaves their subsequence unchanged. -/
theorem claim3_witness :
    parseIso "hello" = Option.none
    ∧ pyFloat "hello" = Option.none
    ∧ value_as_sort_key (Val.str "hello") = (1, Obj.str "hello")
    ∧ (sortItems false "created_date"
          [[("id", Val.int 1)], [("id", Val.int 2)]]).filter
          (fun r => pyKeyEq (rowKey "created_date" r) (value_as_sort_key Val.none))
        = ([[("id", Val.int 1)], [("id", Val.int 2)]] : List Row).filter
          (fun r => pyKeyEq (rowKey "created_date" r) (value_as_sort_key Val.none)) :=
  ⟨rfl, rfl, claim3.1 "hello" rfl rfl,
    claim3.2 false "created_date" [[("id", Val.int 1)], [("id", Val.int 2)]] Val.none⟩

/-- C2 (amended): re-sorting an already-sorted row set with the same direction
leaves it unchanged, and when the rows' sort keys are pairwise distinct (under
Python `==`) the descending sort is the exact reverse of the ascending sort —
the direction flag reverses the whole comparator, rank ordering included.
(Without the distinctness proviso the reversal fails: stability makes both
directions keep equal-key rows in original order, see the counterexample.) -/
theorem claim2 (attr : String) (l : List Row) :
    (l.Pairwise (fun a b => pyKeyEq (rowKey attr a) (rowKey attr b) = false) →
      sortItems true attr l = (sortItems false attr l).reverse)
    ∧ (∀ rev : Bool, sortItems rev attr (sortItems rev attr l) = sortItems rev attr l) := by
  constructor
  · intro hd
    have hd2 : l.Pairwise (fun a b => keyMeas (rowKey attr a) ≠ keyMeas (rowKey attr b)) := by
      refine hd.imp ?_
      intro a b h heq
      have ht := (pyKeyEq_iff (goodKey_rowKey attr a) (goodKey_rowKey attr b)).mpr heq
      rw [h] at ht
      exact Bool.false_ne_true ht
    have hsymm : ∀ {x y : Row},
        keyMeas (rowKey attr x) ≠ keyMeas (rowKey attr y) →
        keyMeas (rowKey attr y) ≠ keyMeas (rowKey attr x) := fun h => h.symm
    haveI : IsAntisymm Row (fun a b => keyMeas (rowKey attr b) < keyMeas (rowKey attr a)) :=
      ⟨fun a b h1 h2 => (lt_asymm h1 h2).elim⟩
    have hDne : (sortItems true attr l).Pairwise
        (fun a b => keyMeas (rowKey attr a) ≠ keyMeas (rowKey attr b)) :=
      ((sortItems_perm true attr l).pairwise_iff hsymm).mpr hd2
    have hAne : (sortItems false attr l).Pairwise
        (fun a b => keyMeas (rowKey attr a) ≠ keyMeas (rowKey attr b)) :=
      ((sortItems_perm false attr l).pairwise_iff hsymm).mpr hd2
    have hDS : (sortItems true attr l).Sorted
        (fun a b => keyMeas (rowKey attr b) < keyMeas (rowKey attr a)) := by
      refine ((sortItems_sorted true attr l).and hDne).imp ?_
      rintro a b ⟨hle, hne⟩
      exact lt_of_le_of_ne ((rowLeRel_true_iff attr a b).mp hle) hne.symm
    have hARS : (sortItems false attr l).reverse.Sorted
        (fun a b => keyMeas (rowKey attr b) < keyMeas (rowKey attr a)) := by
      rw [List.Sorted, List.pairwise_reverse]
      refine ((sortItems_sorted false attr l).and hAne).imp ?_
      rintro a b ⟨hle, hne⟩
      exact lt_of_le_of_ne ((rowLeRel_false_iff attr a b).mp hle) hne
    have hperm : sortItems true attr l ~ (sortItems false attr l).reverse :=
      ((sortItems_perm true attr l).trans (sortItems_perm false attr l).symm).trans
        (List.reverse_perm _).symm
    exact List.eq_of_perm_of_sorted hperm hDS hARS
  · intro rev
    exact ((sortItems_sorted rev attr l)).insertionSort_eq

/-- Witness for C2: a two-row set with distinct keys (an ISO date and a
missing attribute); the descending sort is the reverse of the ascending sort,
and re-sorting the ascending result is the identity. -/
theorem claim2_witness :
    ([[("id", Val.int 1), ("created_date", Val.str "2023-01-02")],
      ([("id", Val.int 3)] : Row)].Pairwise
        (fun a b => pyKeyEq (rowKey "created_date" a) (rowKey "created_date" b) = false))
    ∧ sortItems true "created_date"
        [[("id", Val.int 1), ("created_date", Val.str "2023-01-02")], [("id", Val.int 3)]]
      = (sortItems false "created_date"
        [[("id", Val.int 1), ("created_date", Val.str "2023-01-02")], [("id", Val.int 3)]]).reverse
    ∧ sortItems false "created_date"
        (sortItems false "created_date"
          [[("id", Val.int 1), ("created_date", Val.str "2023-01-02")], [("id", Val.int 3)]])
      = sortItems false "created_date"
        [[("id", Val.int 1), ("created_date", Val.str "2023-01-02")], [("id", Val.int 3)]] :=
  ⟨by decide,
    (claim2 "created_date" _).1 (by decide),
    (claim2 "created_date" _).2 false⟩

/-- Counterexample to C2 as stated: a row set whose sort attribute mixes a
number, an ISO date string, a plain string and two missing values.  The two
rows missing the attribute have equal sort keys, and by stability both the
ascending and the descending sort keep them in their original relative order,
so the descending result is not the reverse of the ascending result. -/
theorem claim2_cex :
    sortItems true "created_date"
        [[("created_date", Val.int 5)],
         [("created_date", Val.str "2023-01-02")],
         [("created_date", Val.str "zzz")],
         [("id", Val.int 1)],
         [("id", Val.int 2)]]
      ≠ (sortItems false "created_date"
          [[("created_date", Val.int 5)],
           [("created_date", Val.str "2023-01-02")],
           [("created_date", Val.str "zzz")],
           [("id", Val.int 1)],
           [("id", Val.int 2)]]).reverse := by
  intro h
  exact absurd (congrArg (List.map idNum) h) (by decide)

/-- C1: on the concrete three-row set of the specification, sorting ascending
by `created_date` orders the rows id 2, id 1, id 3 (the row missing the
attribute sorts last), the derived header is `created_date,id`
(lexicographic), and the serialized CSV has an empty `created_date` cell in
the row of id 3. -/
theorem claim1 :
    sortItems false "created_date"
        [[("id", Val.int 1), ("created_date", Val.str "2023-01-02")],
         [("id", Val.int 2), ("created_date", Val.str "2023-01-01")],
         [("id", Val.int 3)]]
      = [[("id", Val.int 2), ("created_date", Val.str "2023-01-01")],
         [("id", Val.int 1), ("created_date", Val.str "2023-01-02")],
         [("id", Val.int 3)]]
    ∧ collect_headers
        [[("id", Val.int 1), ("created_date", Val.str "2023-01-02")],
         [("id", Val.int 2), ("created_date", Val.str "2023-01-01")],
         [("id", Val.int 3)]]
      = ["created_date", "id"]
    ∧ write_csv
        [[("id", Val.int 2), ("created_date", Val.str "2023-01-01")],
         [("id", Val.int 1), ("created_date", Val.str "2023-01-02")],
         [("id", Val.int 3)]]
        ["created_date", "id"] ','
      = some ["created_date,id", "2023-01-01,2", "2023-01-02,1", ",3"] :=
  ⟨rfl, rfl, rfl⟩

/-- C4 (amended): a bound participates in the filter only when it is truthy
(present and nonzero, by the source's `if start_ts and end_ts` tests): two
truthy bounds give the inclusive interval `[rangeStart, rangeEnd]`, exactly
one truthy bound gives the corresponding inclusive one-sided filter, and
otherwise no filter is applied; a bound equal to `0` (the epoch instant) is
treated exactly like an absent bound. -/
theorem claim4 (a b : Int) (ha : a ≠ 0) (hb : b ≠ 0) :
    (mkFilter (some a) (some b) = Filter.between a b
      ∧ (∀ x : Int, filterHolds (Filter.between a b) x ↔ (a ≤ x ∧ x ≤ b)))
    ∧ (mkFilter (some a) Option.none = Filter.gte a
      ∧ (∀ x : Int, filterHolds (Filter.gte a) x ↔ a ≤ x))
    ∧ (mkFilter Option.none (some b) = Filter.lte b
      ∧ (∀ x : Int, filterHolds (Filter.lte b) x ↔ x ≤ b))
    ∧ (mkFilter Option.none Option.none = Filter.noFilter
      ∧ (∀ x : Int, filterHolds Filter.noFilter x))
    ∧ (∀ e : Option Int, mkFilter (some 0) e = mkFilter Option.none e)
    ∧ (∀ s : Option Int, mkFilter s (some 0) = mkFilter s Option.none) := by
  refine ⟨⟨?_, ?_⟩, ⟨?_, ?_⟩, ⟨?_, ?_⟩, ⟨?_, ?_⟩, ?_, ?_⟩ <;>
    try (intro x)
  · simp [mkFilter, truthyInt, ha, hb]
  · simp [filterHolds]
  · simp [mkFilter, truthyInt, ha]
  · simp [filterHolds]
  · simp [mkFilter, truthyInt, hb]
  · simp [filterHolds]
  · simp [mkFilter, truthyInt]
  · simp [filterHolds]
  · simp [mkFilter, truthyInt]
  · simp [mkFilter, truthyInt]

/-- Witness for C4 at the bounds 1 and 2. -/
theorem claim4_witness :
    (1 : Int) ≠ 0 ∧ (2 : Int) ≠ 0
    ∧ mkFilter (some 1) (some 2) = Filter.between 1 2
    ∧ mkFilter (some 1) Option.none = Filter.gte 1
    ∧ mkFilter Option.none (some 2) = Filter.lte 2
    ∧ mkFilter Option.none Option.none = Filter.noFilter :=
  ⟨by decide, by decide,
    ((claim4 1 2 (by decide) (by decide)).1).1,
    ((claim4 1 2 (by decide) (by decide)).2.1).1,
    ((claim4 1 2 (by decide) (by decide)).2.2.1).1,
    ((claim4 1 2 (by decide) (by decide)).2.2.2.1).1⟩

/-- Counterexample to C4 as stated: a start bound of epoch millisecond `0`
(the perfectly valid CLI date `1970-01-01`) is falsy in Python, so with both
bounds given the scan filter degenerates to the one-sided upper bound instead
of the inclusive interval. -/
theorem claim4_cex :
    iso_to_timestamp_ms "1970-01-01" = some 0
    ∧ mkFilter (some 0) (some 86400000) = Filter.lte 86400000
    ∧ Filter.lte 86400000 ≠ Filter.between 0 86400000 := by
  refine ⟨?_, rfl, by decide⟩
  have hp : parseIso "1970-01-01" = some ((0 : Int) : ℚ) := rfl
  rw [iso_to_timestamp_ms, hp]
  norm_num

/-- Accumulator-generalized correctness of the paging loop: along a response
chain, the loop returns the accumulator followed by the concatenation of all
pages, provided the fuel covers the chain length. -/
theorem scanLoop_fetches {K : Type} {page : Option K → Option (PageResp K)}
    {k : Option K} {rs : List (PageResp K)} (h : Fetches page k rs) :
    ∀ fuel : Nat, rs.length ≤ fuel → ∀ acc : List Row,
      scanLoop page fuel k acc = some (acc ++ (rs.map PageResp.items).flatten) := by
  induction h with
  | last hp hl =>
    intro fuel hf acc
    match fuel, hf with
    | Nat.succ fuel, _ =>
      simp [scanLoop, hp, hl]
  | step hp hl htail ih =>
    intro fuel hf acc
    match fuel, hf with
    | Nat.succ fuel, hf =>
      have hf2 : _ ≤ fuel := Nat.le_of_succ_le_succ (by simpa using hf)
      simp only [scanLoop, hp, hl]
      rw [ih fuel hf2]
      simp

/-- C5: for every chain of `K` page responses produced by the store — each
request after the first carrying the continuation token of the previous
response, every response but the last carrying a token, the last carrying
none — the scan loop started with no token terminates at the token-less
response and returns the in-order concatenation of all pages' rows, whose
length is the sum of the per-page row counts (no duplicates, no drops),
for any chain length. -/
theorem claim5 {K : Type} (page : Option K → Option (PageResp K))
    (rs : List (PageResp K)) (h : Fetches page Option.none rs)
    (fuel : Nat) (hf : rs.length ≤ fuel) :
    scanLoop page fuel Option.none [] = some ((rs.map PageResp.items).flatten)
    ∧ ((rs.map PageResp.items).flatten).length
        = (rs.map (fun r => r.items.length)).sum
    ∧ (∀ (store : Filter → Option K → Option (PageResp K)) (s e : Option Int),
        store (mkFilter s e) = page →
        scan_table store s e fuel = some ((rs.map PageResp.items).flatten)) := by
  have hmain : scanLoop page fuel Option.none []
      = some ((rs.map PageResp.items).flatten) := by
    simpa using scanLoop_fetches h fuel hf []
  refine ⟨hmain, ?_, ?_⟩
  · simp only [List.length_flatten, List.map_map]
    rfl
  · intro store s e hs
    simp only [scan_table, hs]
    exact hmain

/-- Witness for C5: a two-page chain over `wPage` accumulates both pages'
rows in order. -/
theorem claim5_witness :
    Fetches wPage Option.none
      [⟨[[("id", Val.int 1)]], some 7⟩, ⟨[[("id", Val.int 2)]], Option.none⟩]
    ∧ scanLoop wPage 2 Option.none []
        = some [[("id", Val.int 1)], [("id", Val.int 2)]] := by
  have hfet : Fetches wPage Option.none
      [⟨[[("id", Val.int 1)]], some 7⟩, ⟨[[("id", Val.int 2)]], Option.none⟩] :=
    Fetches.step rfl rfl (Fetches.last rfl rfl)
  refine ⟨hfet, ?_⟩
  exact ((claim5 wPage _ hfet 2 (by decide)).1).trans rfl

/-- C6: when the referenced table does not exist, the run takes the handled
`NotFound` path: the pipeline aborts with exit status 1, a diagnostic goes to
the error channel, and no output file is created or modified (the output file
is only opened after a successful scan). -/
theorem claim6 (sortBy : String) (descending : Bool) (delim : Char) :
    runMain ScanOutcome.notFound sortBy descending delim = RunOutcome.fatalNotFound
    ∧ exitCode (runMain ScanOutcome.notFound sortBy descending delim) = 1
    ∧ stderrDiagnostic (runMain ScanOutcome.notFound sortBy descending delim) = true
    ∧ outputFileWritten (runMain ScanOutcome.notFound sortBy descending delim) = false :=
  ⟨rfl, rfl, rfl, rfl⟩

/-- C7 (amended): when ignore-missing is unset and some requested column is
absent from the input's columns, the projection fails with a schema-mismatch
condition listing exactly the missing names (in request order) and produces no
output; when ignore-missing is set and at least one requested column remains,
the missing names are dropped (with a warning) and the output keeps exactly
the remaining requested columns in caller-specified order; when ignore-missing
is set but no requested column remains, the run fails with
`noColumnsRemaining` instead of producing output. -/
theorem claim7 (existingCols : List String) (rows : List (List (String × String)))
    (wanted : List String) :
    (wanted.filter (fun c => decide (c ∉ existingCols)) ≠ [] →
      filter_csv existingCols rows wanted false
        = Except.error (FilterErr.schemaMismatch
            (wanted.filter (fun c => decide (c ∉ existingCols)))))
    ∧ (wanted.filter (fun c => decide (c ∉ existingCols)) ≠ [] →
        wanted.filter (fun c => decide (c ∈ existingCols)) ≠ [] →
        filter_csv existingCols rows wanted true
          = Except.ok ⟨wanted.filter (fun c => decide (c ∈ existingCols)),
              rows.map (projectRow (wanted.filter (fun c => decide (c ∈ existingCols)))),
              true⟩)
    ∧ (wanted.filter (fun c => decide (c ∉ existingCols)) ≠ [] →
        wanted.filter (fun c => decide (c ∈ existingCols)) = [] →
        filter_csv existingCols rows wanted true
          = Except.error FilterErr.noColumnsRemaining) := by
  have hex : wanted.filter (fun c => decide (c ∉ existingCols)) ≠ [] →
      ∃ x ∈ wanted, x ∉ existingCols := by
    intro hne
    rw [Ne, List.filter_eq_nil_iff] at hne
    push_neg at hne
    simpa using hne
  refine ⟨?_, ?_, ?_⟩
  · intro hne
    simp [filter_csv, hex hne]
  · intro hne hkeep
    simp [filter_csv, hex hne, hkeep]
  · intro hne hkeep
    simp [filter_csv, hex hne, hkeep]

/-- Witness for C7 on the specification's concrete example: columns
`["a","c"]` against an input with columns `{a,b}`. -/
theorem claim7_witness :
    (["a", "c"].filter (fun c => decide (c ∉ (["a", "b"] : List String))) = ["c"])
    ∧ filter_csv ["a", "b"] [[("a", "1"), ("b", "2")]] ["a", "c"] false
        = Except.error (FilterErr.schemaMismatch ["c"])
    ∧ filter_csv ["a", "b"] [[("a", "1"), ("b", "2")]] ["a", "c"] true
        = Except.ok ⟨["a"], [["1"]], true⟩ := by
  refine ⟨rfl, ?_, ?_⟩
  · exact ((claim7 ["a", "b"] [[("a", "1"), ("b", "2")]] ["a", "c"]).1
      (by decide)).trans rfl
  · exact ((claim7 ["a", "b"] [[("a", "1"), ("b", "2")]] ["a", "c"]).2.1
      (by decide) (by decide)).trans rfl

/-- Counterexample to C7 as stated: with ignore-missing set and every
requested column missing (`["c"]` against columns `{a,b}`), the code does not
produce an output with the (empty) remaining column list — it aborts with
`noColumnsRemaining`. -/
theorem claim7_cex :
    filter_csv ["a", "b"] [] ["c"] true = Except.error FilterErr.noColumnsRemaining
    ∧ filter_csv ["a", "b"] [] ["c"] true ≠ Except.ok ⟨[], [], true⟩ :=
  ⟨rfl, fun h => Except.noConfusion h⟩

/-- C8: scalar coercion maps a `Decimal` to an integer exactly when its value
has zero fractional remainder (`den = 1`), in which case the integer equals
the value exactly, and to a float otherwise; the decision depends only on the
numeric value, not on the stored text form — two representations of the same
value coerce identically. -/
theorem claim8 (m : Int) (e : Nat) :
    ((decVal m e).den = 1 →
      to_scalar (Val.dec m e) = some (Val.int (decVal m e).num)
        ∧ ((decVal m e).num : ℚ) = decVal m e)
    ∧ ((decVal m e).den ≠ 1 → to_scalar (Val.dec m e) = some (Val.float (decVal m e)))
    ∧ (∀ (m2 : Int) (e2 : Nat), decVal m2 e2 = decVal m e →
        to_scalar (Val.dec m2 e2) = to_scalar (Val.dec m e)) := by
  refine ⟨?_, ?_, ?_⟩
  · intro h
    exact ⟨by simp [to_scalar, h], (Rat.den_eq_one_iff _).mp h⟩
  · intro h
    simp [to_scalar, h]
  · intro m2 e2 hv
    simp [to_scalar, hv]

/-- Witness for C8: the Decimal `10.0` (coefficient 100, exponent 1) coerces
to the integer 10. -/
theorem claim8_witness :
    (decVal 100 1).den = 1 ∧ to_scalar (Val.dec 100 1) = some (Val.int 10) := by
  have h10 : decVal 100 1 = 10 := by norm_num [decVal]
  have hden : (decVal 100 1).den = 1 := by
    rw [h10]
    rfl
  refine ⟨hden, ?_⟩
  rw [((claim8 100 1).1 hden).1, h10]
  rfl

/-- C9: in CSV output, the cell computed for a column whose value is `None`,
and for a column absent from the row, is in both cases the empty string (and
no error is raised): `to_scalar(it.get(h, ""))` passes `None` or `""` through
and the writer renders both as an empty cell. -/
theorem claim9 (it : Row) (h : String)
    (hmiss : it.lookup h = some Val.none ∨ it.lookup h = Option.none) :
    csvCellOf it h = some "" := by
  rcases hmiss with h1 | h1 <;>
    simp [csvCellOf, h1, to_scalar, cellString]

/-- Witness for C9: a null-valued column and an absent column both give an
empty cell. -/
theorem claim9_witness :
    (([("a", Val.none)] : Row).lookup "a" = some Val.none)
    ∧ csvCellOf [("a", Val.none)] "a" = some ""
    ∧ (([("a", Val.none)] : Row).lookup "b" = Option.none)
    ∧ csvCellOf [("a", Val.none)] "b" = some "" :=
  ⟨rfl, claim9 _ _ (Or.inl rfl), rfl, claim9 _ _ (Or.inr rfl)⟩

end DynamoQuery
